import Mathlib

/-!
Verification development for the donation / practice-record collection backend.
Server handlers from server/routes.js and simple-server.js are shallowly
embedded as pure Lean functions over explicit store states.
-/

namespace DonationSystem

/-- A JavaScript-style value, as found in a JSON request body.
vUndef models an absent field. -/
inductive JsValue where
  | vStr : String → JsValue
  | vNum : Int → JsValue
  | vBool : Bool → JsValue
  | vNull : JsValue
  | vUndef : JsValue
deriving Repr, DecidableEq

/-- JavaScript truthiness of a value. -/
def truthy : JsValue → Bool
  | JsValue.vStr s => s ≠ ""
  | JsValue.vNum n => n ≠ 0
  | JsValue.vBool b => b
  | JsValue.vNull => false
  | JsValue.vUndef => false

/-- JavaScript string coercion, as applied by parseInt to its argument. -/
def jsToString : JsValue → String
  | JsValue.vStr s => s
  | JsValue.vNum n => toString n
  | JsValue.vBool b => if b then "true" else "false"
  | JsValue.vNull => "null"
  | JsValue.vUndef => "undefined"

def isWhitespaceChar (c : Char) : Bool :=
  c = ' ' || c = '\t' || c = '\n' || c = '\r'

def decDigitVal (c : Char) : Option Nat :=
  if c.isDigit then some (c.toNat - 48) else none

def hexDigitVal (c : Char) : Option Nat :=
  if c.isDigit then some (c.toNat - 48)
  else if 'a' ≤ c ∧ c ≤ 'f' then some (c.toNat - 87)
  else if 'A' ≤ c ∧ c ≤ 'F' then some (c.toNat - 55)
  else none

/-- Accumulate the longest leading run of digits (given a digit reader);
none when no digit was seen, mirroring parseInt returning NaN. -/
def parseDigitRun (dig : Char → Option Nat) (base : Nat) :
    List Char → Option Nat → Option Nat
  | [], acc => acc
  | c :: cs, acc =>
    match dig c with
    | some d => parseDigitRun dig base cs (some ((acc.getD 0) * base + d))
    | none => acc

/-- Unsigned part of parseInt with default radix: a 0x / 0X prefix switches
to hexadecimal, otherwise the longest decimal digit prefix is read. -/
def parseIntUnsigned : List Char → Option Nat
  | '0' :: 'x' :: rest => parseDigitRun hexDigitVal 16 rest none
  | '0' :: 'X' :: rest => parseDigitRun hexDigitVal 16 rest none
  | cs => parseDigitRun decDigitVal 10 cs none

/-- JavaScript parseInt on a character list: leading whitespace is skipped,
an optional sign is read, then the digit prefix; none models NaN. -/
def parseIntChars (cs : List Char) : Option Int :=
  match cs.dropWhile isWhitespaceChar with
  | '-' :: rest => (parseIntUnsigned rest).map (fun n => -(n : Int))
  | '+' :: rest => (parseIntUnsigned rest).map (fun n => (n : Int))
  | rest => (parseIntUnsigned rest).map (fun n => (n : Int))

/-- parseInt applied to a request-body value. -/
def jsParseInt (v : JsValue) : Option Int :=
  parseIntChars (jsToString v).data

/-- The idiom parseInt(x) || 0 from the submit handler: NaN collapses to 0
(and a parsed 0 stays 0). -/
def coerceCounter (v : JsValue) : Int :=
  match jsParseInt v with
  | some n => if n = 0 then 0 else n
  | none => 0

/-- The JavaScript a || b fallback on values. -/
def jsOr (a b : JsValue) : JsValue := if truthy a then a else b

/-- Request body of the practice-record submit endpoint: the required
identity fields, the nine declared numeric counters, and the optional
passthrough fields that the handler touches. -/
structure HomeworkPayload where
  date : JsValue := JsValue.vUndef
  name : JsValue := JsValue.vUndef
  nineWord : JsValue := JsValue.vUndef
  buddhaWorship : JsValue := JsValue.vUndef
  quietZen : JsValue := JsValue.vUndef
  activeZen : JsValue := JsValue.vUndef
  diamond : JsValue := JsValue.vUndef
  amitabha : JsValue := JsValue.vUndef
  guanyin : JsValue := JsValue.vUndef
  puxian : JsValue := JsValue.vUndef
  dizang : JsValue := JsValue.vUndef
  deviceId : JsValue := JsValue.vUndef
  remark : JsValue := JsValue.vUndef
deriving Repr, DecidableEq

/-- A stored practice record, as shaped by the routes.js submit handler. -/
structure HomeworkRecord where
  date : JsValue
  name : JsValue
  remark : JsValue
  submitTime : Nat
  submittedAt : Nat
  createdAt : Nat
  updatedAt : Nat
  deviceId : JsValue
  syncStatus : String
  nineWord : Int
  buddhaWorship : Int
  quietZen : Int
  activeZen : Int
  diamond : Int
  amitabha : Int
  guanyin : Int
  puxian : Int
  dizang : Int
deriving Repr, DecidableEq

/-- Document built by the routes.js homework submit handler after the
required-field gate: spread of the payload, four timestamps stamped to the
same now, deviceId defaulted to web, syncStatus synced, and every declared
counter coerced through parseInt(x) || 0. -/
def homeworkDoc (now : Nat) (p : HomeworkPayload) : HomeworkRecord :=
  { date := p.date
    name := p.name
    remark := p.remark
    submitTime := now
    submittedAt := now
    createdAt := now
    updatedAt := now
    deviceId := jsOr p.deviceId (JsValue.vStr "web")
    syncStatus := "synced"
    nineWord := coerceCounter p.nineWord
    buddhaWorship := coerceCounter p.buddhaWorship
    quietZen := coerceCounter p.quietZen
    activeZen := coerceCounter p.activeZen
    diamond := coerceCounter p.diamond
    amitabha := coerceCounter p.amitabha
    guanyin := coerceCounter p.guanyin
    puxian := coerceCounter p.puxian
    dizang := coerceCounter p.dizang }

/-- Outcome visible to the HTTP client. -/
structure SubmitOutcome where
  status : Nat
  success : Bool
deriving Repr, DecidableEq

/-- POST submit of routes.js (homework module): required-field gate,
insert of the shaped document, then the operation-log insert, all inside
one try block — logOk says whether the log insert succeeds; when it fails
the catch path answers 500 although the record is already stored. -/
def submitHomework (now : Nat) (logOk : Bool) (p : HomeworkPayload)
    (store : List HomeworkRecord) : SubmitOutcome × List HomeworkRecord :=
  if !truthy p.date || !truthy p.name then
    ({ status := 400, success := false }, store)
  else
    let store2 := store ++ [homeworkDoc now p]
    if logOk then ({ status := 200, success := true }, store2)
    else ({ status := 500, success := false }, store2)

/-- A record stored by simple-server.js: the payload spread unchanged plus
the three timestamps the handler adds. -/
structure SimpleRecord where
  payload : HomeworkPayload
  submitTime : Nat
  createdAt : Nat
  updatedAt : Nat
deriving Repr, DecidableEq

/-- POST submit of simple-server.js: same required-field gate, then the
record is stored with timestamps and no numeric coercion. -/
def submitSimple (now : Nat) (p : HomeworkPayload)
    (store : List SimpleRecord) : SubmitOutcome × List SimpleRecord :=
  if !truthy p.date || !truthy p.name then
    ({ status := 400, success := false }, store)
  else
    ({ status := 200, success := true },
     store ++ [{ payload := p, submitTime := now, createdAt := now, updatedAt := now }])

/-- One element of the data array sent to the donation submit endpoint;
none models a null or missing array element. -/
structure DonationEntry where
  name : JsValue := JsValue.vUndef
  project : JsValue := JsValue.vUndef
deriving Repr, DecidableEq

/-- Whether a value is a string (the typeof check of the filter). -/
def isStringVal : JsValue → Bool
  | JsValue.vStr _ => true
  | _ => false

/-- The validData filter of the donation submit handler: the element is
truthy, its name and project are truthy, and both are strings. -/
def entryValid : Option DonationEntry → Bool
  | none => false
  | some e =>
    truthy e.name && truthy e.project && isStringVal e.name && isStringVal e.project

/-- String content of a value (empty for non-strings). -/
def strVal : JsValue → String
  | JsValue.vStr s => s
  | _ => ""

/-- A stored donation document (the fields this development tracks). -/
structure DonationRecord where
  name : String
  project : String
  submittedAt : Nat
  createdAt : Nat
  updatedAt : Nat
  syncStatus : String
deriving Repr, DecidableEq

/-- Metadata stamping applied to each valid entry before insertMany. -/
def donationDoc (now : Nat) : Option DonationEntry → DonationRecord
  | some e =>
    { name := strVal e.name, project := strVal e.project,
      submittedAt := now, createdAt := now, updatedAt := now, syncStatus := "synced" }
  | none =>
    { name := "", project := "",
      submittedAt := now, createdAt := now, updatedAt := now, syncStatus := "synced" }

/-- Response of the donation submit endpoint. -/
structure DonationResponse where
  status : Nat
  success : Bool
  submittedCount : Nat
  failedCount : Nat
  warning : Option String
deriving Repr, DecidableEq

/-- Warning text attached when some entries were dropped. -/
def droppedWarning (n : Nat) : String :=
  "有 " ++ toString n ++ " 条数据因格式无效被忽略"

/-- POST donations of routes.js: filter out invalid entries; reject with
400 when none are valid; otherwise insertMany the stamped documents, write
an operation-log entry (inside the same try block: a log failure reaches
the catch path and answers 500 although the documents are stored), and on
the success path report submittedCount, failedCount and the warning. -/
def submitDonations (now : Nat) (logOk : Bool) (data : List (Option DonationEntry))
    (store : List DonationRecord) : DonationResponse × List DonationRecord :=
  let validData := data.filter entryValid
  if validData.length = 0 then
    ({ status := 400, success := false, submittedCount := 0, failedCount := 0,
       warning := none }, store)
  else
    let store2 := store ++ validData.map (donationDoc now)
    if logOk then
      ({ status := 200, success := true,
         submittedCount := validData.length,
         failedCount := data.length - validData.length,
         warning :=
           if validData.length < data.length then
             some (droppedWarning (data.length - validData.length))
           else none }, store2)
    else
      ({ status := 500, success := false, submittedCount := 0, failedCount := 0,
         warning := none }, store2)

/-- escapeCSV of routes.js on characters: every double quote is doubled
(the global regex replace). -/
def escapeCSVChars : List Char → List Char
  | [] => []
  | c :: cs =>
    if c = '"' then '"' :: '"' :: escapeCSVChars cs else c :: escapeCSVChars cs

/-- escapeCSV of routes.js. -/
def escapeCSV (s : String) : String := String.mk (escapeCSVChars s.data)

/-- A text cell of the donation CSV rows: quote-wrapped escaped text. -/
def donationTextCell (s : String) : String := "\"" ++ escapeCSV s ++ "\""

/-- A text cell of the homework CSV rows: quote-wrapped raw text, with no
escaping of inner double quotes. -/
def homeworkTextCell (s : String) : String := "\"" ++ s ++ "\""

/-- Modelled from the spec: re-parsing of one quoted CSV field by a
standard reader, which the round-trip property quantifies over. Inside the
quotes a doubled double quote denotes one literal double quote; a single
double quote closes the field and must end the input; none is a parse
failure. -/
def readQuotedAux (acc : List Char) : List Char → Option (List Char)
  | [] => none
  | c :: cs =>
    if c = '"' then
      match cs with
      | [] => some acc.reverse
      | d :: ds => if d = '"' then readQuotedAux ('"' :: acc) ds else none
    else readQuotedAux (c :: acc) cs

/-- Modelled from the spec: full quoted-field reader (see readQuotedAux). -/
def readQuotedField : List Char → Option (List Char)
  | '"' :: cs => readQuotedAux [] cs
  | _ => none

/-- Response of the donation CSV export endpoint. -/
structure CsvResponse where
  status : Nat
  success : Bool
  body : Option String
deriving Repr, DecidableEq

/-- One donation CSV row over the tracked text fields. -/
def donationCsvRow (d : DonationRecord) : String :=
  donationTextCell d.name ++ "," ++ donationTextCell d.project

/-- GET export/csv of routes.js (donation module): the CSV content is
built, then the operation-log insert runs before res.send inside the same
try block — when the log insert fails the catch path answers a 500 JSON
error and no CSV body is sent. -/
def exportDonationsCsv (logOk : Bool) (store : List DonationRecord) : CsvResponse :=
  let bom := String.mk [Char.ofNat 0xFEFF]
  let content := bom ++ String.intercalate "\n" (store.map donationCsvRow)
  if logOk then { status := 200, success := true, body := some content }
  else { status := 500, success := false, body := none }

/-- toFixed(1) of a nonnegative rational: the ECMA rounding picks the
integer n of tenths with n / 10 closest to the value, ties toward the
larger n. -/
def toFixed1Nonneg (q : ℚ) : String :=
  let n : Nat := (Int.floor (10 * q + 1 / 2)).toNat
  toString (n / 10) ++ "." ++ toString (n % 10)

/-- toFixed(1): a negative value is formatted as the sign followed by the
formatted magnitude. -/
def toFixed1 (q : ℚ) : String :=
  if q < 0 then "-" ++ toFixed1Nonneg (-q) else toFixed1Nonneg q

/-- growthRate of the stats handler: the day-over-day formula through
toFixed(1) when yesterday is positive, else the two hard-coded edges. -/
def growthRate (yesterdayCount todayCount : Nat) : String :=
  if 0 < yesterdayCount then
    toFixed1 (((todayCount : ℚ) - (yesterdayCount : ℚ)) / (yesterdayCount : ℚ) * 100)
  else if 0 < todayCount then "100.0"
  else "0.0"

/-- The trends.growthRate response field: the rate with a percent sign. -/
def growthRateField (yesterdayCount todayCount : Nat) : String :=
  growthRate yesterdayCount todayCount ++ "%"

def msPerDay : Nat := 86400000

/-- Timestamp (milliseconds) of midnight opening calendar day d, the value
new Date gives a date-only string. -/
def dayStart (d : Nat) : Nat := d * msPerDay

/-- The submittedAt range condition built by the listing and export
handlers. -/
structure SubmittedAtRange where
  gte : Option Nat
  lte : Option Nat
deriving Repr, DecidableEq

/-- Date-range construction of the listing/export handlers: startDate
becomes a lower bound at its midnight; endDate is pushed to
setHours(23, 59, 59, 999), the last millisecond of its day, as an upper
bound. -/
def buildDateRange (startDate endDate : Option Nat) : SubmittedAtRange :=
  { gte := startDate.map dayStart,
    lte := endDate.map (fun d => dayStart d + (msPerDay - 1)) }

/-- Store-side evaluation of the range condition on a timestamp. -/
def matchesRange (r : SubmittedAtRange) (ts : Nat) : Bool :=
  (match r.gte with
   | some g => Nat.ble g ts
   | none => true)
  &&
  (match r.lte with
   | some l => Nat.ble ts l
   | none => true)

/-- The JavaScript a || b fallback on optional strings (an empty string is
falsy and falls through). -/
def jsOrStr (a b : Option String) : Option String :=
  match a with
  | some s => if s ≠ "" then some s else b
  | none => b

/-- ADMIN_PASSWORD environment fallback of checkAdminAuth. -/
def expectedAdminPassword (env : Option String) : String :=
  match env with
  | some s => if s ≠ "" then s else "admin123"
  | none => "admin123"

/-- checkAdminAuth of routes.js: the credential taken from the query
parameter, falling back to the body field, must equal the configured
password. -/
def checkAdminAuth (queryPw bodyPw env : Option String) : Bool :=
  decide (jsOrStr queryPw bodyPw = some (expectedAdminPassword env))

/-- The identifying fields of a stored donation document that the delete
endpoints look at. -/
structure DonationDoc where
  oid : String
  localId : String
  serverId : String
  batchId : String
deriving Repr, DecidableEq

/-- ObjectId.isValid on a hex string: 24 hexadecimal characters. -/
def isValidObjectId (s : String) : Bool :=
  s.length = 24 && s.data.all (fun c =>
    c.isDigit || ('a' ≤ c && c ≤ 'f') || ('A' ≤ c && c ≤ 'F'))

/-- Outcome of an administrator-gated endpoint: the HTTP status, the store
it leaves behind, and whether any collection operation ran. -/
structure AdminOutcome (α : Type) where
  status : Nat
  store : α
  storeAccessed : Bool
deriving Repr, DecidableEq

/-- Authorized body of the single-delete endpoint: deleteOne by primary
identifier when it is a valid ObjectId, then a localId / serverId
fallback, else 404. -/
def deleteDonationBody (id : String) (store : List DonationDoc) :
    Nat × List DonationDoc :=
  let byOid := if isValidObjectId id then store.filter (fun d => d.oid == id) else []
  if byOid.length ≠ 0 then
    (200, store.eraseP (fun d => d.oid == id))
  else
    let byAlt := store.filter (fun d => d.localId == id || d.serverId == id)
    if byAlt.length ≠ 0 then
      (200, store.eraseP (fun d => d.localId == id || d.serverId == id))
    else (404, store)

/-- DELETE of one donation with its middleware chain: checkAdminAuth
answers 401 before any collection operation when the credential is wrong. -/
def deleteDonationEndpoint (queryPw bodyPw env : Option String) (id : String)
    (store : List DonationDoc) : AdminOutcome (List DonationDoc) :=
  if checkAdminAuth queryPw bodyPw env then
    let r := deleteDonationBody id store
    { status := r.1, store := r.2, storeAccessed := true }
  else { status := 401, store := store, storeAccessed := false }

/-- DELETE of a whole batch with its middleware chain. -/
def deleteBatchEndpoint (queryPw bodyPw env : Option String) (batchId : String)
    (store : List DonationDoc) : AdminOutcome (List DonationDoc) :=
  if checkAdminAuth queryPw bodyPw env then
    let items := store.filter (fun d => d.batchId == batchId)
    if items.length = 0 then { status := 404, store := store, storeAccessed := true }
    else
      { status := 200, store := store.filter (fun d => !(d.batchId == batchId)),
        storeAccessed := true }
  else { status := 401, store := store, storeAccessed := false }

/-- DELETE of all donations (clear-all) with its middleware chain. -/
def clearAllEndpoint (queryPw bodyPw env : Option String)
    (store : List DonationDoc) : AdminOutcome (List DonationDoc) :=
  if checkAdminAuth queryPw bodyPw env then
    { status := 200, store := [], storeAccessed := true }
  else { status := 401, store := store, storeAccessed := false }

/-- GET of the operation logs with its middleware chain: a read-only
endpoint, the log store is never modified. -/
def getLogsEndpoint {α : Type} (queryPw bodyPw env : Option String)
    (logStore : List α) : AdminOutcome (List α) :=
  if checkAdminAuth queryPw bodyPw env then
    { status := 200, store := logStore, storeAccessed := true }
  else { status := 401, store := logStore, storeAccessed := false }

/-- JavaScript object update on an association-list view of an object:
the key is bound to the new value, shadowing any earlier binding. -/
def objSet {V : Type} (l : List (String × V)) (k : String) (v : V) :
    List (String × V) :=
  l.filter (fun p => p.1 ≠ k) ++ [(k, v)]

/-- The update-document built by both update handlers: the caller fields
spread first, then updatedAt bound to the server clock, so the server
binding shadows any caller-supplied updatedAt. -/
def buildUpdateSet {V : Type} (updateData : List (String × V)) (now : V) :
    List (String × V) :=
  objSet updateData "updatedAt" now

/-- Store-side application of a MongoDB set document to a document. -/
def applySet {V : Type} (doc setDoc : List (String × V)) : List (String × V) :=
  setDoc.foldl (fun d kv => objSet d kv.1 kv.2) doc

/-- updateOne: the first document whose identifier matches is rewritten by
the set document; others are untouched. -/
def updateFirst {V : Type} (id : Nat) (setDoc : List (String × V)) :
    List (Nat × List (String × V)) → List (Nat × List (String × V))
  | [] => []
  | (i, d) :: rest =>
    if i = id then (i, applySet d setDoc) :: rest
    else (i, d) :: updateFirst id setDoc rest

/-- PUT update of the homework module (and of simple-server.js): build the
set document with the server-clock updatedAt, updateOne by identifier, 404
when nothing matched. -/
def updateRecordEndpoint {V : Type} (id : Nat) (updateData : List (String × V))
    (now : V) (store : List (Nat × List (String × V))) :
    Nat × List (Nat × List (String × V)) :=
  if store.any (fun r => r.1 = id) then
    (200, updateFirst id (buildUpdateSet updateData now) store)
  else (404, store)

theorem coerceCounter_of_parse_fail (v : JsValue) (h : jsParseInt v = none) :
    coerceCounter v = 0 := by
  simp [coerceCounter, h]

/-- C3: a practice-record submission lacking date or name (absent or empty
string, hence falsy) is answered 400 by both submit handlers and neither
store is mutated. -/
theorem required_field_gate (now : Nat) (logOk : Bool) (p : HomeworkPayload)
    (s1 : List HomeworkRecord) (s2 : List SimpleRecord)
    (h : truthy p.date = false ∨ truthy p.name = false) :
    (submitHomework now logOk p s1).1.status = 400 ∧
    (submitHomework now logOk p s1).1.success = false ∧
    (submitHomework now logOk p s1).2 = s1 ∧
    (submitSimple now p s2).1.status = 400 ∧
    (submitSimple now p s2).1.success = false ∧
    (submitSimple now p s2).2 = s2 := by
  have hg : (!truthy p.date || !truthy p.name) = true := by
    rcases h with h | h <;> simp [h]
  simp [submitHomework, submitSimple, hg]

/-- C3 witness at a concrete rejected payload. -/
theorem required_field_gate_witness :
    ((truthy (HomeworkPayload.date { name := JsValue.vStr "A" }) = false ∨
      truthy (HomeworkPayload.name { name := JsValue.vStr "A" }) = false) ∧
     (submitHomework 0 true { name := JsValue.vStr "A" } []).1.status = 400 ∧
     (submitHomework 0 true { name := JsValue.vStr "A" } []).2 = []) := by
  refine ⟨Or.inl (by decide), ?_, ?_⟩
  · exact (required_field_gate 0 true { name := JsValue.vStr "A" } [] []
      (Or.inl (by decide))).1
  · exact (required_field_gate 0 true { name := JsValue.vStr "A" } [] []
      (Or.inl (by decide))).2.2.1

/-- C4: once the gate passes, every declared counter of the stored record
is the parseInt coercion of its input, a failed or absent parse stores 0,
and the submission is accepted, never rejected; in particular a diamond
field holding abc is stored as 0. -/
theorem numeric_coercion_permissive (now : Nat) (logOk : Bool)
    (p : HomeworkPayload) (store : List HomeworkRecord)
    (hd : truthy p.date = true) (hn : truthy p.name = true) :
    (submitHomework now logOk p store).2 = store ++ [homeworkDoc now p] ∧
    (logOk = true → (submitHomework now logOk p store).1.success = true) ∧
    (homeworkDoc now p).nineWord = coerceCounter p.nineWord ∧
    (homeworkDoc now p).buddhaWorship = coerceCounter p.buddhaWorship ∧
    (homeworkDoc now p).quietZen = coerceCounter p.quietZen ∧
    (homeworkDoc now p).activeZen = coerceCounter p.activeZen ∧
    (homeworkDoc now p).diamond = coerceCounter p.diamond ∧
    (homeworkDoc now p).amitabha = coerceCounter p.amitabha ∧
    (homeworkDoc now p).guanyin = coerceCounter p.guanyin ∧
    (homeworkDoc now p).puxian = coerceCounter p.puxian ∧
    (homeworkDoc now p).dizang = coerceCounter p.dizang ∧
    (∀ v : JsValue, jsParseInt v = none → coerceCounter v = 0) ∧
    coerceCounter JsValue.vUndef = 0 ∧
    coerceCounter (JsValue.vStr "abc") = 0 := by
  refine ⟨?_, ?_, rfl, rfl, rfl, rfl, rfl, rfl, rfl, rfl, rfl,
    coerceCounter_of_parse_fail, by decide, by decide⟩
  · simp [submitHomework, hd, hn]
    cases logOk <;> simp
  · intro hl
    simp [submitHomework, hd, hn, hl]

/-- C4 witness: the example payload with diamond abc is accepted and its
stored diamond counter is 0. -/
theorem numeric_coercion_permissive_witness :
    (truthy (HomeworkPayload.date
       { date := JsValue.vStr "2024-01-01", name := JsValue.vStr "A",
         diamond := JsValue.vStr "abc" }) = true) ∧
    (submitHomework 7 true
       { date := JsValue.vStr "2024-01-01", name := JsValue.vStr "A",
         diamond := JsValue.vStr "abc" } []).2 =
      [] ++ [homeworkDoc 7
       { date := JsValue.vStr "2024-01-01", name := JsValue.vStr "A",
         diamond := JsValue.vStr "abc" }] ∧
    (homeworkDoc 7
       { date := JsValue.vStr "2024-01-01", name := JsValue.vStr "A",
         diamond := JsValue.vStr "abc" }).diamond = 0 := by
  refine ⟨by decide, ?_, ?_⟩
  · exact (numeric_coercion_permissive 7 true _ [] (by decide) (by decide)).1
  · have h := (numeric_coercion_permissive 7 true
      { date := JsValue.vStr "2024-01-01", name := JsValue.vStr "A",
        diamond := JsValue.vStr "abc" } [] (by decide) (by decide)).2.2.2.2.2.2.1
    rw [h]; decide

/-- Concrete payload refuting the non-negativity half of the stored-record
invariant: a well-formed submission carrying diamond "-5". -/
def negativePayload : HomeworkPayload :=
  { date := JsValue.vStr "2024-01-01", name := JsValue.vStr "A",
    diamond := JsValue.vStr "-5" }

/-- C5 counterexample: the submission with diamond "-5" passes the gate,
is accepted with success, and the stored diamond counter is -5, a negative
integer — the claimed non-negativity of stored counters fails. -/
theorem stored_counter_negative_counterexample :
    (submitHomework 0 true negativePayload []).1.success = true ∧
    (submitHomework 0 true negativePayload []).2 =
      [homeworkDoc 0 negativePayload] ∧
    (homeworkDoc 0 negativePayload).diamond = -5 ∧
    (homeworkDoc 0 negativePayload).diamond < 0 := by
  refine ⟨by decide, by decide, by decide, by decide⟩

/-- C5 amended: in every record stored by the submit handler, date and
name are the gate-checked truthy values (present, never empty strings),
and every counter holds an integer produced by the parseInt coercion —
malformed input coerces to 0 and never causes an error, but the integer
inherits the sign of numeric input and need not be non-negative. -/
theorem stored_record_invariant_amended (now : Nat) (p : HomeworkPayload)
    (hd : truthy p.date = true) (hn : truthy p.name = true) :
    truthy (homeworkDoc now p).date = true ∧
    truthy (homeworkDoc now p).name = true ∧
    (homeworkDoc now p).date ≠ JsValue.vStr "" ∧
    (homeworkDoc now p).name ≠ JsValue.vStr "" ∧
    (homeworkDoc now p).nineWord = coerceCounter p.nineWord ∧
    (homeworkDoc now p).buddhaWorship = coerceCounter p.buddhaWorship ∧
    (homeworkDoc now p).quietZen = coerceCounter p.quietZen ∧
    (homeworkDoc now p).activeZen = coerceCounter p.activeZen ∧
    (homeworkDoc now p).diamond = coerceCounter p.diamond ∧
    (homeworkDoc now p).amitabha = coerceCounter p.amitabha ∧
    (homeworkDoc now p).guanyin = coerceCounter p.guanyin ∧
    (homeworkDoc now p).puxian = coerceCounter p.puxian ∧
    (homeworkDoc now p).dizang = coerceCounter p.dizang ∧
    (∀ v : JsValue, jsParseInt v = none → coerceCounter v = 0) := by
  refine ⟨hd, hn, ?_, ?_, rfl, rfl, rfl, rfl, rfl, rfl, rfl, rfl, rfl,
    coerceCounter_of_parse_fail⟩
  · intro hcontra
    have hq : p.date = JsValue.vStr "" := hcontra
    rw [hq] at hd
    simp [truthy] at hd
  · intro hcontra
    have hq : p.name = JsValue.vStr "" := hcontra
    rw [hq] at hn
    simp [truthy] at hn

/-- C5 amended witness at a concrete accepted payload. -/
theorem stored_record_invariant_amended_witness :
    (truthy (HomeworkPayload.date negativePayload) = true) ∧
    truthy (homeworkDoc 3 negativePayload).date = true ∧
    (homeworkDoc 3 negativePayload).name ≠ JsValue.vStr "" := by
  refine ⟨by decide, ?_, ?_⟩
  · exact (stored_record_invariant_amended 3 negativePayload
      (by decide) (by decide)).1
  · exact (stored_record_invariant_amended 3 negativePayload
      (by decide) (by decide)).2.2.2.1

theorem droppedWarning_ne_empty (n : Nat) : droppedWarning n ≠ "" := by
  intro h
  have hlen := congrArg String.length h
  simp [droppedWarning, String.length_append] at hlen
  exact absurd hlen.1.1 (by decide)

/-- C1: a batch holding at least one valid entry (name and project both
non-empty strings) is accepted: the invalid entries are dropped, exactly
the valid ones are appended to the store, and the success response reports
submittedCount as the number of valid entries, failedCount as the number
dropped, with a non-empty warning whenever failedCount is positive. -/
theorem donation_batch_partial_acceptance (now : Nat)
    (data : List (Option DonationEntry)) (store : List DonationRecord)
    (h : 0 < (data.filter entryValid).length) :
    (submitDonations now true data store).1.success = true ∧
    (submitDonations now true data store).1.status = 200 ∧
    (submitDonations now true data store).1.submittedCount =
      (data.filter entryValid).length ∧
    (submitDonations now true data store).1.failedCount =
      data.length - (data.filter entryValid).length ∧
    (0 < (submitDonations now true data store).1.failedCount →
      ∃ w, (submitDonations now true data store).1.warning = some w ∧ w ≠ "") ∧
    (submitDonations now true data store).2 =
      store ++ (data.filter entryValid).map (donationDoc now) := by
  have hne : ¬ (data.filter entryValid).length = 0 := Nat.pos_iff_ne_zero.mp h
  refine ⟨?_, ?_, ?_, ?_, ?_, ?_⟩
  · simp [submitDonations, hne]
  · simp [submitDonations, hne]
  · simp [submitDonations, hne]
  · simp [submitDonations, hne]
  · intro hf
    have hlt : (data.filter entryValid).length < data.length := by
      have : 0 < data.length - (data.filter entryValid).length := by
        simpa [submitDonations, hne] using hf
      omega
    refine ⟨droppedWarning (data.length - (data.filter entryValid).length), ?_,
      droppedWarning_ne_empty _⟩
    simp [submitDonations, hne, hlt]
  · simp [submitDonations, hne]

/-- C1 witness: a batch of three entries of which one is valid. -/
theorem donation_batch_partial_acceptance_witness :
    (0 < (([some { name := JsValue.vStr "A", project := JsValue.vStr "P" },
            some { name := JsValue.vStr "B" },
            none] : List (Option DonationEntry)).filter entryValid).length) ∧
    (submitDonations 5 true
      [some { name := JsValue.vStr "A", project := JsValue.vStr "P" },
       some { name := JsValue.vStr "B" }, none] []).1.submittedCount = 1 ∧
    (submitDonations 5 true
      [some { name := JsValue.vStr "A", project := JsValue.vStr "P" },
       some { name := JsValue.vStr "B" }, none] []).1.failedCount = 2 ∧
    (submitDonations 5 true
      [some { name := JsValue.vStr "A", project := JsValue.vStr "P" },
       some { name := JsValue.vStr "B" }, none] []).1.success = true := by
  have hc := donation_batch_partial_acceptance 5
    [some { name := JsValue.vStr "A", project := JsValue.vStr "P" },
     some { name := JsValue.vStr "B" }, none] [] (by decide)
  refine ⟨by decide, ?_, ?_, hc.1⟩
  · rw [hc.2.2.1]; decide
  · rw [hc.2.2.2.1]; decide

/-- C2 counterexample: with one valid entry and a failing log insert, the
donation submit handler stores the record (the insert succeeded) yet
answers 500 with success false; likewise the CSV export answers 500 and
sends no body although the data retrieval succeeded. The log write is not
best-effort: its failure fails the primary operation response. -/
theorem log_failure_fails_primary_counterexample :
    (submitDonations 0 false
      [some { name := JsValue.vStr "A", project := JsValue.vStr "P" }] []).2 =
      [{ name := "A", project := "P", submittedAt := 0, createdAt := 0,
         updatedAt := 0, syncStatus := "synced" }] ∧
    (submitDonations 0 false
      [some { name := JsValue.vStr "A", project := JsValue.vStr "P" }] []).1.success
      = false ∧
    (submitDonations 0 false
      [some { name := JsValue.vStr "A", project := JsValue.vStr "P" }] []).1.status
      = 500 ∧
    (exportDonationsCsv false
      [{ name := "A", project := "P", submittedAt := 0, createdAt := 0,
         updatedAt := 0, syncStatus := "synced" }]).success = false ∧
    (exportDonationsCsv false
      [{ name := "A", project := "P", submittedAt := 0, createdAt := 0,
         updatedAt := 0, syncStatus := "synced" }]).body = none := by
  refine ⟨by decide, by decide, by decide, by decide, by decide⟩

/-- C2 amended: the operation-log write is not isolated from the primary
operation. When the record insert has succeeded but the log insert fails,
the submit handler answers a 500 error while the inserted documents
persist in the store; when the export data retrieval has succeeded but the
log insert fails, the export answers a 500 error and sends no CSV body. -/
theorem log_failure_yields_error_despite_insert (now : Nat)
    (data : List (Option DonationEntry)) (store : List DonationRecord)
    (h : 0 < (data.filter entryValid).length) :
    (submitDonations now false data store).1.success = false ∧
    (submitDonations now false data store).1.status = 500 ∧
    (submitDonations now false data store).2 =
      store ++ (data.filter entryValid).map (donationDoc now) ∧
    (exportDonationsCsv false store).success = false ∧
    (exportDonationsCsv false store).status = 500 ∧
    (exportDonationsCsv false store).body = none := by
  have hne : ¬ (data.filter entryValid).length = 0 := Nat.pos_iff_ne_zero.mp h
  refine ⟨?_, ?_, ?_, rfl, rfl, rfl⟩
  · simp [submitDonations, hne]
  · simp [submitDonations, hne]
  · simp [submitDonations, hne]

/-- C2 amended witness. -/
theorem log_failure_yields_error_despite_insert_witness :
    (0 < (([some { name := JsValue.vStr "A", project := JsValue.vStr "P" }] :
        List (Option DonationEntry)).filter entryValid).length) ∧
    (submitDonations 0 false
      [some { name := JsValue.vStr "A", project := JsValue.vStr "P" }] []).1.status
      = 500 := by
  exact ⟨by decide,
    (log_failure_yields_error_despite_insert 0
      [some { name := JsValue.vStr "A", project := JsValue.vStr "P" }] []
      (by decide)).2.1⟩

/-- C6: the day-over-day growth field applies the (today - yesterday) /
yesterday * 100 formula through toFixed(1) whenever yesterday is positive,
and the edges are as specified: both zero gives 0.0 percent, yesterday
zero with today positive gives 100.0 percent, and 10 to 15 gives 50.0
percent. -/
theorem growth_rate_formula_and_edges :
    (∀ y t : Nat, 0 < y →
      growthRateField y t =
        toFixed1 (((t : ℚ) - (y : ℚ)) / (y : ℚ) * 100) ++ "%") ∧
    growthRateField 0 0 = "0.0%" ∧
    (∀ t : Nat, 0 < t → growthRateField 0 t = "100.0%") ∧
    growthRateField 10 15 = "50.0%" := by
  refine ⟨?_, rfl, ?_, ?_⟩
  · intro y t hy
    simp [growthRateField, growthRate, hy]
  · intro t ht
    simp [growthRateField, growthRate, ht]
  · have h1 : (((15 : Nat) : ℚ) - ((10 : Nat) : ℚ)) / ((10 : Nat) : ℚ) * 100 = 50 := by
      norm_num
    have h2 : ¬ ((50 : ℚ) < 0) := by norm_num
    have h3 : Int.floor (10 * (50 : ℚ) + 1 / 2) = 500 := by norm_num
    simp only [growthRateField, growthRate, if_pos (by norm_num : (0 : Nat) < 10),
      h1, toFixed1, if_neg h2, toFixed1Nonneg, h3]
    rfl

/-- C6 witness at yesterday 10, today 15. -/
theorem growth_rate_formula_and_edges_witness :
    ((0 : Nat) < 10) ∧
    growthRateField 10 15 =
      toFixed1 ((((15 : Nat) : ℚ) - ((10 : Nat) : ℚ)) / ((10 : Nat) : ℚ) * 100) ++ "%" := by
  exact ⟨by decide, growth_rate_formula_and_edges.1 10 15 (by decide)⟩

/-- C8: the built filter carries endDate pushed to the last millisecond of
its day, and with startDate and endDate on the same day it matches exactly
the timestamps lying anywhere within that calendar day — in particular the
23:59:59.999 instant. -/
theorem date_range_inclusive :
    (∀ s : Option Nat, ∀ d : Nat,
      (buildDateRange s (some d)).lte = some (dayStart d + (msPerDay - 1))) ∧
    (∀ d ts : Nat,
      matchesRange (buildDateRange (some d) (some d)) ts = true ↔
        dayStart d ≤ ts ∧ ts < dayStart d + msPerDay) ∧
    (∀ d : Nat,
      matchesRange (buildDateRange (some d) (some d))
        (dayStart d + 86399999) = true) := by
  refine ⟨fun s d => rfl, ?_, ?_⟩
  · intro d ts
    simp [buildDateRange, matchesRange, msPerDay, dayStart]
    omega
  · intro d
    simp [buildDateRange, matchesRange, msPerDay, dayStart]

theorem readQuotedAux_cons_ne (acc : List Char) (c : Char) (cs : List Char)
    (hc : ¬ c = '"') :
    readQuotedAux acc (c :: cs) = readQuotedAux (c :: acc) cs := by
  rw [readQuotedAux.eq_def]
  simp [hc]

theorem readQuotedAux_quote_nil (acc : List Char) :
    readQuotedAux acc ['"'] = some acc.reverse := rfl

theorem readQuotedAux_quote_quote (acc ds : List Char) :
    readQuotedAux acc ('"' :: '"' :: ds) = readQuotedAux ('"' :: acc) ds := rfl

theorem readQuotedAux_escape (s : List Char) :
    ∀ acc : List Char,
      readQuotedAux acc (escapeCSVChars s ++ ['"']) = some (acc.reverse ++ s) := by
  induction s with
  | nil =>
    intro acc
    simpa [escapeCSVChars] using readQuotedAux_quote_nil acc
  | cons c cs ih =>
    intro acc
    by_cases hc : c = '"'
    · subst hc
      have he : escapeCSVChars ('"' :: cs) = '"' :: '"' :: escapeCSVChars cs := by
        simp [escapeCSVChars]
      rw [he, List.cons_append, List.cons_append, readQuotedAux_quote_quote, ih]
      simp
    · have he : escapeCSVChars (c :: cs) = c :: escapeCSVChars cs := by
        simp [escapeCSVChars, hc]
      rw [he, List.cons_append, readQuotedAux_cons_ne _ _ _ hc, ih]
      simp

theorem donation_cell_readback (s : String) :
    readQuotedField (donationTextCell s).data = some s.data := by
  have hdata : (donationTextCell s).data =
      '"' :: (escapeCSVChars s.data ++ ['"']) := by
    simp [donationTextCell, escapeCSV, String.data_append]
  rw [hdata]
  simpa [readQuotedField] using readQuotedAux_escape s.data []

/-- C7 counterexample: in the homework CSV export a text cell is
quote-wrapped without escaping inner double quotes, so the cell emitted
for the name A"B fails to re-parse as a quoted field at all — the claimed
round-trip identity for every CSV export does not hold. -/
theorem homework_csv_roundtrip_counterexample :
    homeworkTextCell "A\"B" = "\"A\"B\"" ∧
    readQuotedField (homeworkTextCell "A\"B").data = none ∧
    readQuotedField (homeworkTextCell "A\"B").data ≠ some "A\"B".data := by
  refine ⟨rfl, by decide, by decide⟩

/-- C7 amended: the donation CSV export wraps each text field in double
quotes with internal double quotes doubled, and re-parsing such a cell
recovers the original value exactly, for every string — in particular the
name A"B is emitted as A""B inside the quotes; the homework CSV export
instead wraps text raw, and its cell for the name A"B fails to re-parse to
the original. -/
theorem csv_escaping_roundtrip_amended :
    (∀ s : String, readQuotedField (donationTextCell s).data = some s.data) ∧
    donationTextCell "A\"B" = "\"A\"\"B\"" ∧
    readQuotedField (homeworkTextCell "A\"B").data ≠ some "A\"B".data := by
  refine ⟨donation_cell_readback, rfl, by decide⟩

/-- C9: with a wrong or missing administrator credential every gated
endpoint — single delete, batch delete, clear-all and the log listing —
answers 401, performs no collection operation, and leaves its store
exactly as it was; a request carrying no credential at all is always
refused. -/
theorem admin_gate_unauthorized (queryPw bodyPw env : Option String)
    (id batchId : String) (store : List DonationDoc) (logStore : List Nat)
    (h : checkAdminAuth queryPw bodyPw env = false) :
    (deleteDonationEndpoint queryPw bodyPw env id store).status = 401 ∧
    (deleteDonationEndpoint queryPw bodyPw env id store).store = store ∧
    (deleteDonationEndpoint queryPw bodyPw env id store).storeAccessed = false ∧
    (deleteBatchEndpoint queryPw bodyPw env batchId store).status = 401 ∧
    (deleteBatchEndpoint queryPw bodyPw env batchId store).store = store ∧
    (deleteBatchEndpoint queryPw bodyPw env batchId store).storeAccessed = false ∧
    (clearAllEndpoint queryPw bodyPw env store).status = 401 ∧
    (clearAllEndpoint queryPw bodyPw env store).store = store ∧
    (clearAllEndpoint queryPw bodyPw env store).storeAccessed = false ∧
    (getLogsEndpoint queryPw bodyPw env logStore).status = 401 ∧
    (getLogsEndpoint queryPw bodyPw env logStore).store = logStore ∧
    (getLogsEndpoint queryPw bodyPw env logStore).storeAccessed = false ∧
    (∀ e : Option String, checkAdminAuth none none e = false) := by
  refine ⟨?_, ?_, ?_, ?_, ?_, ?_, ?_, ?_, ?_, ?_, ?_, ?_, ?_⟩
  all_goals
    first
    | simp [deleteDonationEndpoint, deleteBatchEndpoint, clearAllEndpoint,
        getLogsEndpoint, h]
    | intro e; simp [checkAdminAuth, jsOrStr]

/-- C9 witness: a wrong password against the default configuration. -/
theorem admin_gate_unauthorized_witness :
    checkAdminAuth (some "wrong") none none = false ∧
    (clearAllEndpoint (some "wrong") none none
      [{ oid := "a", localId := "b", serverId := "c", batchId := "d" }]).status = 401 ∧
    (clearAllEndpoint (some "wrong") none none
      [{ oid := "a", localId := "b", serverId := "c", batchId := "d" }]).store =
      [{ oid := "a", localId := "b", serverId := "c", batchId := "d" }] := by
  have hc := admin_gate_unauthorized (some "wrong") none none "x" "y"
    [{ oid := "a", localId := "b", serverId := "c", batchId := "d" }] []
    (by decide)
  exact ⟨by decide, hc.2.2.2.2.2.2.1, hc.2.2.2.2.2.2.2.1⟩

theorem lookup_objSet {V : Type} (l : List (String × V)) (k : String) (v : V) :
    (objSet l k v).lookup k = some v := by
  induction l with
  | nil => simp [objSet]
  | cons p ps ih =>
    rcases p with ⟨a, b⟩
    by_cases h : a = k
    · simpa [objSet, h] using ih
    · have hba : (k == a) = false := by
        simp [Ne.symm h]
      simpa [objSet, List.lookup, h, hba] using ih

theorem applySet_append {V : Type} (doc l1 l2 : List (String × V)) :
    applySet doc (l1 ++ l2) = applySet (applySet doc l1) l2 := by
  simp [applySet, List.foldl_append]

theorem lookup_applySet_updatedAt {V : Type} (doc upd : List (String × V))
    (now : V) :
    (applySet doc (buildUpdateSet upd now)).lookup "updatedAt" = some now := by
  have hsplit : buildUpdateSet upd now =
      upd.filter (fun p => p.1 ≠ "updatedAt") ++ [("updatedAt", now)] := rfl
  rw [hsplit, applySet_append]
  exact lookup_objSet _ _ _

theorem updateFirst_lookup {V : Type} (id : Nat) (setDoc : List (String × V))
    (store : List (Nat × List (String × V))) (d : List (String × V))
    (h : store.lookup id = some d) :
    (updateFirst id setDoc store).lookup id = some (applySet d setDoc) := by
  induction store with
  | nil => simp [List.lookup] at h
  | cons p ps ih =>
    rcases p with ⟨i, pd⟩
    by_cases hi : i = id
    · subst hi
      simp [List.lookup] at h
      subst h
      simp [updateFirst, List.lookup]
    · have hne : (id == i) = false := by
        simp [Ne.symm hi]
      simp [List.lookup, hne] at h
      simp [updateFirst, hi, List.lookup, hne]
      exact ih h

theorem any_of_lookup {V : Type} (id : Nat) (store : List (Nat × V)) (d : V)
    (h : store.lookup id = some d) :
    store.any (fun r => r.1 = id) = true := by
  induction store with
  | nil => simp [List.lookup] at h
  | cons p ps ih =>
    rcases p with ⟨i, v⟩
    by_cases hi : i = id
    · simp [hi]
    · have hne : (id == i) = false := by
        simp [Ne.symm hi]
      simp [List.lookup, hne] at h
      simp [hi]
      simpa using ih h

/-- C10: when the update endpoint matches a record, the stored record ends
with updatedAt bound to the server clock, even when the caller-supplied
partial-update payload itself carries an updatedAt binding — the server
binding always shadows the caller value. -/
theorem updatedAt_server_override {V : Type} (id : Nat)
    (updateData : List (String × V)) (now : V)
    (store : List (Nat × List (String × V))) (d : List (String × V))
    (h : store.lookup id = some d) :
    (updateRecordEndpoint id updateData now store).1 = 200 ∧
    (updateRecordEndpoint id updateData now store).2.lookup id =
      some (applySet d (buildUpdateSet updateData now)) ∧
    (applySet d (buildUpdateSet updateData now)).lookup "updatedAt" = some now ∧
    (buildUpdateSet updateData now).lookup "updatedAt" = some now := by
  have hany := any_of_lookup id store d h
  refine ⟨?_, ?_, lookup_applySet_updatedAt d updateData now, ?_⟩
  · simp [updateRecordEndpoint, hany]
  · simp only [updateRecordEndpoint, hany, if_true]
    exact updateFirst_lookup id _ store d h
  · have : buildUpdateSet updateData now = objSet updateData "updatedAt" now := rfl
    rw [this]
    exact lookup_objSet _ _ _

/-- C10 witness: a caller payload that itself tries to set updatedAt. -/
theorem updatedAt_server_override_witness :
    (([(1, [("updatedAt", (3 : Nat))])] :
        List (Nat × List (String × Nat))).lookup 1 = some [("updatedAt", 3)]) ∧
    (updateRecordEndpoint 1 [("updatedAt", (3 : Nat)), ("name", 9)] 7
      [(1, [("updatedAt", 3)])]).2.lookup 1 =
      some (applySet [("updatedAt", 3)]
        (buildUpdateSet [("updatedAt", (3 : Nat)), ("name", 9)] 7)) ∧
    (applySet [("updatedAt", (3 : Nat))]
      (buildUpdateSet [("updatedAt", (3 : Nat)), ("name", 9)] 7)).lookup "updatedAt"
      = some 7 := by
  have hc := updatedAt_server_override 1 [("updatedAt", (3 : Nat)), ("name", 9)] 7
    [(1, [("updatedAt", 3)])] [("updatedAt", 3)] (by decide)
  exact ⟨by decide, hc.2.1, hc.2.2.1⟩

end DonationSystem
